import Mathlib

/-!
Shallow embedding of the ai-tutorial-generator pipeline
(`src/agents/*.py`, `src/workflows.py`).

Conventions of the embedding:
* A LangChain `Document` is `Doc`: a `page_content` string plus a
  `metadata` dictionary.  Following the data model of the specification
  (`origin_metadata: mapping<string,string>`), metadata values are
  strings; the integer `chunk_id` values written by the parser are
  rendered as decimal strings ("0", "1", ...).
* A Python `dict` is an association list with update-in-place semantics
  (`Meta.set`): writing an existing key replaces its value at its
  position, writing a new key appends it at the end.  `{**a, **b}` is
  `Meta.merge a b`.
* External effects (the LLM backend, the docling converter and chunker,
  HTTP fetches, the filesystem, codecs) are oracle environments passed
  to each agent; an oracle that can raise returns `Except String`,
  the exception text standing for `str(e)`.
* Python string slicing `s[:n]` is `pyTake s n` (code-point based, like
  Python), `s.strip()` is `pyStrip`, `s.lower()`/`s.upper()` are
  `pyLower`/`pyUpper` (all structural so that concrete runs reduce).
-/

/-- Python string slice `s[:n]` (by code points). -/
def pyTake (s : String) (n : Nat) : String :=
  String.mk (s.toList.take n)

/-- Python truthiness-based `x or d` for an optional string
(`None` and the empty string are falsy). -/
def pyOrStr (x : Option String) (d : String) : String :=
  match x with
  | none => d
  | some s => if s.isEmpty then d else s

/-- Python `pat in s` on strings (substring test). -/
def strContainsSub (pat : String) : List Char → Bool
  | [] => decide (pat.toList = [])
  | c :: rest => pat.toList.isPrefixOf (c :: rest) || strContainsSub pat rest

/-- Python `s.split("\n", 1)[-1]`: everything after the first newline,
or the whole string when it has no newline. -/
def afterFirstNewline (s : String) : String :=
  go s.toList
where
  go : List Char → String
  | [] => s
  | c :: rest => if c = '\n' then String.mk rest else go rest

/-- Python `s.lower()` (character-wise). -/
def pyLower (s : String) : String :=
  String.mk (s.toList.map Char.toLower)

/-- Python `s.upper()` (character-wise). -/
def pyUpper (s : String) : String :=
  String.mk (s.toList.map Char.toUpper)

/-- Python `s.startswith(pre)`. -/
def pyStartsWith (s pre : String) : Bool :=
  pre.toList.isPrefixOf s.toList

/-- Python `s.endswith(suf)`. -/
def pyEndsWith (s suf : String) : Bool :=
  suf.toList.isSuffixOf s.toList

/-- Python `c in s` for a single character. -/
def pyHasChar (s : String) (c : Char) : Bool :=
  s.toList.contains c

/-- Python `s.strip()`: remove leading and trailing whitespace. -/
def pyStrip (s : String) : String :=
  String.mk
    (((s.toList.dropWhile Char.isWhitespace).reverse.dropWhile
        Char.isWhitespace).reverse)

/-- Python `s.strip("`")`: remove leading and trailing backtick runs. -/
def stripBackticks (s : String) : String :=
  String.mk (((s.toList.dropWhile (· = '`')).reverse.dropWhile (· = '`')).reverse)

/-- A Python `dict[str, str]` as an association list
(unique keys maintained by `Meta.set`). -/
abbrev Meta := List (String × String)

/-- `m.get(k)` returning `None` when absent (first matching key). -/
def Meta.get? : Meta → String → Option String
  | [], _ => none
  | (k0, v0) :: rest, k => if k0 = k then some v0 else Meta.get? rest k

/-- `m.get(k, d)`. -/
def Meta.getD (m : Meta) (k d : String) : String :=
  (m.get? k).getD d

/-- `m[k] = v`: replace in place when the key exists, append otherwise. -/
def Meta.set : Meta → String → String → Meta
  | [], k, v => [(k, v)]
  | (k0, v0) :: rest, k, v =>
      if k0 = k then (k0, v) :: rest else (k0, v0) :: Meta.set rest k v

/-- `{**a, **b}`: start from `a`, write every entry of `b` in order. -/
def Meta.merge (a b : Meta) : Meta :=
  b.foldl (fun m kv => m.set kv.1 kv.2) a

/-- The keys of a metadata dictionary, in order. -/
def Meta.keys (m : Meta) : List String := m.map Prod.fst

/-- A LangChain `Document`. -/
structure Doc where
  page_content : String
  metadata : Meta
  deriving Repr, DecidableEq

theorem Meta.get?_set_self (m : Meta) (k v : String) :
    (m.set k v).get? k = some v := by
  induction m with
  | nil => simp [Meta.set, Meta.get?]
  | cons kv rest ih =>
      obtain ⟨k0, v0⟩ := kv
      by_cases h : k0 = k
      · simp [Meta.set, Meta.get?, h]
      · simp [Meta.set, Meta.get?, h, ih]

theorem Meta.get?_set_ne (m : Meta) (k k2 v : String) (h : k2 ≠ k) :
    (m.set k2 v).get? k = m.get? k := by
  induction m with
  | nil => simp [Meta.set, Meta.get?, h]
  | cons kv rest ih =>
      obtain ⟨k0, v0⟩ := kv
      by_cases h0 : k0 = k2
      · subst h0
        simp [Meta.set, Meta.get?, h]
      · simp [Meta.set, Meta.get?, h0, ih]

/-- Writing an absent key appends it at the end of the dictionary. -/
theorem Meta.set_absent (m : Meta) (k v : String) (h : m.get? k = none) :
    m.set k v = m ++ [(k, v)] := by
  induction m with
  | nil => simp [Meta.set]
  | cons kv rest ih =>
      obtain ⟨k0, v0⟩ := kv
      by_cases h0 : k0 = k
      · simp [Meta.get?, h0] at h
      · simp [Meta.get?, h0] at h
        simp [Meta.set, h0, ih h]

/-!
## Content analyzer (`src/agents/content_analyzer_agent.py`, `run`)

External effects per block are an oracle `AnalyzerEnv`:
* `vision` — the optional vision model; `describe_image` either returns
  a description or raises.
* `textModel` — `text_model.create(...)` followed by
  `get_text_content()`; either yields the response text or raises.
* `jsonLoads` — the outcome of `json.loads(resp)` followed by the
  `.get("role", "other")` / `.get("summary", "").strip()` accesses:
  `decodeError` is a `json.JSONDecodeError`, `procError` any other
  exception while processing the parsed value (e.g. the parsed value is
  not a dict, or its summary field is not a string), and `fields`
  carries the string-rendered optional `role` and `summary` fields.
-/

/-- Outcome of `vision_model.describe_image(path)`. -/
inductive VisionOutcome where
  | ok (desc : String)
  | raised (e : String)
  deriving Repr, DecidableEq

/-- Outcome of `text_model.create(...)` + `get_text_content()`. -/
inductive TextOutcome where
  | ok (resp : String)
  | raised (e : String)
  deriving Repr, DecidableEq

/-- Outcome of `json.loads` plus the dict accesses on its result. -/
inductive JsonOutcome where
  | decodeError
  | procError
  | fields (role : Option String) (summary : Option String)
  deriving Repr, DecidableEq

structure AnalyzerEnv where
  vision : Option (String → VisionOutcome)
  textModel : String → TextOutcome
  jsonLoads : String → JsonOutcome

/-- The `.endswith((".png", ".jpg", ...))` test on the lowered content. -/
def looksLikeImageExt (s : String) : Bool :=
  let l := pyLower s
  pyEndsWith l ".png" || pyEndsWith l ".jpg" || pyEndsWith l ".jpeg" ||
  pyEndsWith l ".gif" || pyEndsWith l ".bmp" || pyEndsWith l ".webp"

/-- The path/URL heuristic guarding the image-extension classification. -/
def looksLikePath (s : String) : Bool :=
  pyHasChar s '/' || pyHasChar s '\\' || pyStartsWith s "http"

/-- The `(role, summary)` pair computed for one block (the body of the
analyzer loop up to the final metadata writes); every failure degrades
to an error-tagged role, nothing raises. -/
def analyzeRoleSummary (env : AnalyzerEnv) (block : Doc) : String × String :=
  let meta := block.metadata
  let content := block.page_content
  let docling_type := pyUpper (meta.getD "docling_type" "")
  let is_image :=
    docling_type = "IMAGE" ||
    (looksLikeImageExt content && looksLikePath content)
  if is_image then
    match env.vision with
    | none => ("image", "Image content: " ++ content)
    | some v =>
        match v content with
        | .ok d => ("image_description", d)
        | .raised e =>
            ("image_error",
             "[Image description failed: " ++ e ++ "] - Path: " ++ content)
  else
    match env.textModel content with
    | .raised _ => ("analysis_error_llm", pyTake content 100 ++ "...")
    | .ok resp0 =>
        let resp1 := pyStrip resp0
        -- both fence branches of the source perform the same rewrite
        let resp := if pyStartsWith resp1 "```" then
            pyStrip (afterFirstNewline (stripBackticks resp1))
          else resp1
        match env.jsonLoads resp with
        | .decodeError => ("analysis_error_json", resp)
        | .procError => ("analysis_error_processing", resp)
        | .fields role? summary? =>
            (role?.getD "other", pyStrip (summary?.getD ""))

/-- One iteration of the analyzer loop: compute `(role, summary)`, then
append `role` and `original_content_snippet` to a copy of the metadata
and wrap the summary as the new `page_content`. -/
def analyzeBlock (env : AnalyzerEnv) (block : Doc) : Doc :=
  let rs := analyzeRoleSummary env block
  let meta := block.metadata.set "role" rs.1
  let meta := meta.set "original_content_snippet"
    (pyTake block.page_content 200)
  { page_content := rs.2, metadata := meta }

namespace ContentAnalyzerAgent

/-- `ContentAnalyzerAgent.run`: the for-loop appends exactly one
analyzed document per input block, in order. -/
def run (env : AnalyzerEnv) (blocks : List Doc) : List Doc :=
  blocks.map (analyzeBlock env)

end ContentAnalyzerAgent

/-!
## Document parser (`src/agents/document_parser_agent.py`, `run`)

The docling converter and chunker are oracles.  `convert` covers
`DocumentConverter().convert(source=...)` together with the
`isinstance(..., ConversionResult)` check and the falsy-document check:
any of those raising is `.error msg`.  `chunkOf` covers
`chunker.chunk(...)` plus `list(...)`; it may raise as well.  A chunk is
modelled by the three candidate text fields the source probes with
`getattr(chunk, "text", None) or getattr(chunk, "content", None) or
str(chunk)` (Python `or`: an absent or empty field falls through).
-/

/-- An abstract docling document produced by a successful conversion. -/
structure DoclingDoc where
  id : Nat
  deriving Repr, DecidableEq

/-- One chunk as probed by the parser. -/
structure PChunk where
  text : Option String
  content : Option String
  strRepr : String
  deriving Repr, DecidableEq

structure ParserEnv where
  doclingAvailable : Bool
  convert : String → Except String DoclingDoc
  chunkOf : DoclingDoc → Except String (List PChunk)

/-- Truthy-chained text extraction from a chunk. -/
def chunkText (ch : PChunk) : String :=
  match ch.text with
  | some t => if t.isEmpty then chunkTextSnd ch else t
  | none => chunkTextSnd ch
where
  chunkTextSnd (ch : PChunk) : String :=
    match ch.content with
    | some c => if c.isEmpty then ch.strRepr else c
    | none => ch.strRepr

/-- Python `str(x)` for an optional string — `str(None) = "None"`.
Used where the source stores `metadata.get("source", None)`. -/
def optStr (o : Option String) : String :=
  match o with
  | none => "None"
  | some s => s

namespace DocumentParserAgent

/-- `DocumentParserAgent.run`.  Never raises: every failure path
returns the single-element raw-content fallback, whose metadata gains a
`chunk_error` marker. -/
def run (env : ParserEnv) (raw_doc : Doc) : List Doc :=
  let fmt := pyLower (raw_doc.metadata.getD "format" "unknown")
  let source := raw_doc.metadata.get? "source"
  let input_content := raw_doc.page_content
  if !env.doclingAvailable then
    [{ page_content := input_content,
       metadata := raw_doc.metadata.merge
         [("chunk_id", "0"), ("chunk_error", "Docling unavailable")] }]
  else
    match env.convert input_content with
    | .error e =>
        [{ page_content := input_content,
           metadata := raw_doc.metadata.merge
             [("chunk_error", e), ("chunk_id", "0")] }]
    | .ok parsed =>
        match env.chunkOf parsed with
        | .error e =>
            [{ page_content := input_content,
               metadata := raw_doc.metadata.merge
                 [("chunk_error", e), ("chunk_id", "0")] }]
        | .ok [] =>
            [{ page_content := input_content,
               metadata := raw_doc.metadata.merge
                 [("chunk_id", "0"),
                  ("chunk_error", "Chunking produced no chunks")] }]
        | .ok chunks =>
            (List.range chunks.length).zip chunks |>.map fun p =>
              { page_content := chunkText p.2,
                metadata := raw_doc.metadata.merge
                  [("source", optStr source), ("format", fmt),
                   ("chunk_id", toString p.1)] }

end DocumentParserAgent

/-!
## Reviewer/refiner (`src/agents/reviewer_refiner_agent.py`, `run`)

The chat backend is an oracle keyed by the draft content (the user
message is built deterministically from it):
* `.raised e` — `chat_model.create(...)` or `get_text_content()` threw;
* `.nonString r` — `get_text_content()` returned a non-string value
  (the source then raises a `TypeError`, caught by the same handler;
  `r` stands for the rendered type name in the message);
* `.text s` — the response text.
`tb` is the `traceback.format_exc()` text interpolated into the error
markdown.  `useMocks` selects the `refined` / `refined_mock` status.
-/

inductive ChatResult where
  | raised (e : String)
  | nonString (r : String)
  | text (s : String)
  deriving Repr, DecidableEq

structure RefinerEnv where
  response : String → ChatResult
  tb : String
  useMocks : Bool

namespace ReviewerRefinerAgent

/-- The markdown body built in the exception handler. -/
def errorMarkdown (e tb : String) : String :=
  "# Refinement Error\n\nAn error occurred during refinement:\n\n```\n"
    ++ e ++ "\n---\n" ++ tb ++ "\n```"

/-- The document returned by the `except Exception` handler. -/
def exceptionDoc (env : RefinerEnv) (draft : Doc) (e : String) : Doc :=
  { page_content := errorMarkdown e env.tb,
    metadata :=
      ((draft.metadata.set "role" "refinement_error").set
        "status" "failed").set "error_message" e }

/-- `ReviewerRefinerAgent.run`.  A `None` input document takes the same
empty-input branch as an empty `page_content` and is not modelled
separately. -/
def run (env : RefinerEnv) (draft_doc : Doc) : Doc :=
  if draft_doc.page_content.isEmpty then
    { page_content := "# Refinement Error\n\nInput document was empty.",
      metadata := [("role", "refinement_error"), ("status", "failed"),
                   ("error_message", "Input document empty")] }
  else
    match env.response draft_doc.page_content with
    | .raised e => exceptionDoc env draft_doc e
    | .nonString r =>
        exceptionDoc env draft_doc
          ("Expected string from get_text_content(), but got " ++ r)
    | .text s =>
        let refined_md := pyStrip s
        if refined_md.isEmpty then
          { page_content := draft_doc.page_content,
            metadata :=
              (draft_doc.metadata.set "status"
                "refinement_empty_output").set "role" "tutorial_unrefined" }
        else
          { page_content := refined_md,
            metadata :=
              (draft_doc.metadata.set "role" "tutorial_refined").set
                "status" (if env.useMocks then "refined_mock" else "refined") }

end ReviewerRefinerAgent

/-!
## Structure builder (`src/agents/tutorial_structure_agent.py`, `run`)

`create` is `await self.model.create(...)` followed by
`get_text_content()`; its exceptions propagate out of `run` (only the
`json.loads` block is guarded).  `parseOutlineList` is the guarded
`json.loads` + `assert isinstance(outline, list)` step: `none` covers
both a parse failure and a non-list value, in which case the agent
returns the empty outline.  Parsed JSON array items are modelled as
`OutlineNode` trees (the shape the agent requests).
-/

inductive OutlineNode where
  | mk (title : String) (bullets : List String)
       (children : List OutlineNode)

structure StructEnv where
  create : String → Except String String
  parseOutlineList : String → Option (List OutlineNode)

namespace TutorialStructureAgent

/-- `_build_prompt`: the numbered `"{idx}. [{role}] {summary}"` lines
appended to the system prompt (prompt wording is abbreviated — no claim
depends on it). -/
def buildPrompt (insights : List Doc) : String :=
  let bullet_lines := (List.range insights.length).zip insights |>.map
    fun p =>
      toString (p.1 + 1) ++ ". [" ++ p.2.metadata.getD "role" "unknown"
        ++ "] " ++ pyStrip (p.2.page_content.replace "\n" " ")
  "SYSTEM PROMPT: design a coherent tutorial outline in JSON.\n\nBlocks:\n"
    ++ String.intercalate "\n" bullet_lines

/-- `TutorialStructureAgent.run`: empty insights short-circuit to an
empty outline; otherwise the model is queried (exceptions propagate)
and an unparsable response degrades to an empty outline. -/
def run (env : StructEnv) (insights : List Doc) :
    Except String (List OutlineNode) :=
  if insights.isEmpty then
    .ok []
  else do
    let content ← env.create (buildPrompt insights)
    pure ((env.parseOutlineList content).getD [])

end TutorialStructureAgent

/-!
## Orchestrator (`src/workflows.py`, `run_workflow`)

The five agent stages are passed in as behaviors (in the source they
are closures over the LLM backend).  `fileExists` models
`Path(input_file).is_file()`; when it fails, `run_workflow` raises
`FileNotFoundError` (the `.error` result).  After that the stages are
sequenced unconditionally — the source contains no check between the
structuring result and the drafting call.
-/

structure WorkflowStages where
  fileExists : String → Bool
  parse : String → List Doc
  analyze : List Doc → List Doc
  buildOutline : List Doc → List OutlineNode
  draft : List OutlineNode → String
  refine : String → String

structure WorkflowResult where
  markdown : String
  outline : List OutlineNode
  insights : List Doc
  blocks : List Doc
  src : String

/-- `run_workflow`: parse → analyze → structure → markdown → refine,
with no branching between stages. -/
def run_workflow (st : WorkflowStages) (input_file : String) :
    Except String WorkflowResult :=
  if !st.fileExists input_file then
    .error ("FileNotFoundError: " ++ input_file)
  else
    let blocks := st.parse input_file
    let insights := st.analyze blocks
    let outline := st.buildOutline insights
    let markdown := st.draft outline
    let markdown := st.refine markdown
    .ok { markdown := markdown, outline := outline, insights := insights,
          blocks := blocks, src := input_file }

/-!
## Source retriever (`src/agents/source_retriever_agent.py`)

Oracles: `fetch` is `session.get` + `raise_for_status()` (an HTTP error
status is a `requests.RequestException`, so it is folded into
`requestError`); `isFile` is `os.path.isfile`; `readTextUtf8` is the
`open(source, "r", encoding="utf-8").read()` attempt; `readBytes` the
binary fallback read; `decodeIgnore enc bytes` is
`bytes.decode(enc, errors="ignore")` (total — it never raises);
`mkTempPdf` is `tempfile.NamedTemporaryFile(...)` writing the given
bytes and yielding the temp path.  Bytes are lists of byte values.
The exceptions the agent raises (`ValueError`) are the specification's
`RetrievalError`; they are the `.error` results.  The process-wide
`temp_files_to_delete` set is threaded explicitly as a duplicate-free
list: `run` takes the registry and returns the updated one.
-/

structure HttpResponse where
  contentType : String
  body : List Nat
  encoding : Option String
  deriving Repr, DecidableEq

inductive FetchOutcome where
  | requestError (e : String)
  | ok (resp : HttpResponse)
  deriving Repr, DecidableEq

inductive ReadTextOutcome where
  | ok (s : String)
  | unicodeError
  | otherError (e : String)
  deriving Repr, DecidableEq

structure RetrieverEnv where
  fetch : String → FetchOutcome
  isFile : String → Bool
  readTextUtf8 : String → ReadTextOutcome
  readBytes : String → Except String (List Nat)
  decodeIgnore : String → List Nat → String
  mkTempPdf : List Nat → String

/-- The `%PDF-` magic signature. -/
def pdfMagic : List Nat := [37, 80, 68, 70, 45]

/-- `set.add`. -/
def addToSet (reg : List String) (p : String) : List String :=
  if p ∈ reg then reg else reg ++ [p]

namespace SourceRetrieverAgent

/-- `source.lower().startswith(("http://", "https://"))`. -/
def isUrlSource (source : String) : Bool :=
  pyStartsWith (pyLower source) "http://" ||
  pyStartsWith (pyLower source) "https://"

/-- `SourceRetrieverAgent.run`, returning the produced document and the
updated temp-file registry, or the raised exception text. -/
def run (env : RetrieverEnv) (reg : List String) (source : String) :
    Except String (Doc × List String) :=
  if isUrlSource source then
    match env.fetch source with
    | .requestError _ =>
        .error ("Failed to retrieve source URL: " ++ source)
    | .ok resp =>
        let ctype := pyLower resp.contentType
        if strContainsSub "application/pdf" ctype.toList then
          let path := env.mkTempPdf resp.body
          .ok ({ page_content := path,
                 metadata := [("format", "pdf"), ("source", source)] },
               addToSet reg path)
        else if resp.body.take 5 = pdfMagic then
          let path := env.mkTempPdf resp.body
          .ok ({ page_content := path,
                 metadata := [("format", "pdf"), ("source", source)] },
               addToSet reg path)
        else
          .ok ({ page_content :=
                   env.decodeIgnore (pyOrStr resp.encoding "utf-8") resp.body,
                 metadata := [("format", "html"), ("source", source)] },
               reg)
  else if env.isFile source then
    if pyEndsWith (pyLower source) ".pdf" then
      .ok ({ page_content := source,
             metadata := [("format", "pdf"), ("source", source)] }, reg)
    else
      match env.readTextUtf8 source with
      | .ok s =>
          .ok ({ page_content := s,
                 metadata := [("format", "html"), ("source", source)] }, reg)
      | .unicodeError =>
          match env.readBytes source with
          | .error _ =>
              .error ("Failed to read local file: " ++ source)
          | .ok byte_content =>
              if byte_content.take 5 = pdfMagic then
                .ok ({ page_content := source,
                       metadata := [("format", "pdf"), ("source", source)] },
                     reg)
              else
                .ok ({ page_content := env.decodeIgnore "utf-8" byte_content,
                       metadata := [("format", "unknown"),
                                    ("source", source)] }, reg)
      | .otherError _ =>
          .error ("Failed to read local file: " ++ source)
  else
    .error ("Input source " ++ source ++
            " is not a valid URL or existing local file.")

end SourceRetrieverAgent

/-- `cleanup_temp_files` over an explicit filesystem state `fs` (the
set of currently existing paths, possibly with temp files already gone)
and the registry.  `os.remove` succeeds exactly when the path exists;
an `OSError` (file already removed) is caught: the loop continues and
the path stays registered.  The function is total — no exception
escapes it.  Returns the new filesystem and the new registry. -/
def cleanup_temp_files : List String → List String →
    List String × List String
  | fs, [] => (fs, [])
  | fs, f :: rest =>
      if f ∈ fs then
        cleanup_temp_files (fs.erase f) rest
      else
        let r := cleanup_temp_files fs rest
        (r.1, f :: r.2)

/-!
## Supporting lemmas
-/

/-- Lookup distributes over dictionary append. -/
theorem Meta.get?_append (a b : Meta) (k : String) :
    (a ++ b).get? k =
      match a.get? k with
      | some v => some v
      | none => b.get? k := by
  induction a with
  | nil => simp [Meta.get?]
  | cons kv rest ih =>
      obtain ⟨k0, v0⟩ := kv
      by_cases h : k0 = k
      · simp [Meta.get?, h]
      · simp [Meta.get?, h, ih]

/-- A Python slice `s[:n]` has at most `n` characters. -/
theorem pyTake_length_le (s : String) (n : Nat) :
    (pyTake s n).length ≤ n := by
  have : (pyTake s n).length = (s.toList.take n).length := rfl
  rw [this, List.length_take]
  exact min_le_left _ _

/-!
## Claim theorems
-/

/-- **C1.** For every non-empty list of input blocks,
`ContentAnalyzerAgent.run` returns a list of insights of exactly the
same length, and the i-th returned insight is the analysis of the i-th
input block (order preserved), for every analyzer environment — i.e.
regardless of whether individual blocks succeed or degrade to
error-tagged roles. -/
theorem analyze_preserves_length_and_order (env : AnalyzerEnv)
    (blocks : List Doc) (_hne : blocks ≠ []) :
    (ContentAnalyzerAgent.run env blocks).length = blocks.length ∧
    ∀ i : Nat, (ContentAnalyzerAgent.run env blocks)[i]? =
      (blocks[i]?).map (analyzeBlock env) := by
  refine ⟨?_, ?_⟩
  · simp [ContentAnalyzerAgent.run]
  · intro i
    simp [ContentAnalyzerAgent.run]

def envC1 : AnalyzerEnv :=
  { vision := none,
    textModel := fun _ => .raised "backend down",
    jsonLoads := fun _ => .decodeError }

def blockC1 : Doc := { page_content := "hello world", metadata := [] }

/-- Witness for C1 at a concrete one-block input. -/
theorem analyze_preserves_length_and_order_witness :
    (ContentAnalyzerAgent.run envC1 [blockC1]).length = [blockC1].length ∧
    ∀ i : Nat, (ContentAnalyzerAgent.run envC1 [blockC1])[i]? =
      ([blockC1][i]?).map (analyzeBlock envC1) :=
  analyze_preserves_length_and_order envC1 [blockC1] (by simp)

/-- **C10.** For every input block whose metadata does not already
contain the keys `role` or `original_content_snippet`, the insight
returned by the analyzer keeps every original metadata entry unchanged
and in place, adding exactly the two keys `role` and
`original_content_snippet`, the latter holding the original content
truncated to at most 200 characters. -/
theorem analyze_adds_exactly_role_and_snippet (env : AnalyzerEnv)
    (block : Doc)
    (hrole : block.metadata.get? "role" = none)
    (hsnip : block.metadata.get? "original_content_snippet" = none) :
    (∀ k, k ≠ "role" → k ≠ "original_content_snippet" →
      (analyzeBlock env block).metadata.get? k = block.metadata.get? k) ∧
    (analyzeBlock env block).metadata.get? "original_content_snippet" =
      some (pyTake block.page_content 200) ∧
    (pyTake block.page_content 200).length ≤ 200 ∧
    ∃ r, (analyzeBlock env block).metadata =
      block.metadata ++
        [("role", r),
         ("original_content_snippet", pyTake block.page_content 200)] := by
  have hshape : ∃ r, (analyzeBlock env block).metadata =
      block.metadata ++
        [("role", r),
         ("original_content_snippet", pyTake block.page_content 200)] := by
    refine ⟨(analyzeRoleSummary env block).1, ?_⟩
    show ((block.metadata.set "role" _).set "original_content_snippet"
            (pyTake block.page_content 200)) = _
    rw [Meta.set_absent _ _ _ hrole]
    rw [Meta.set_absent]
    · simp
    · rw [Meta.get?_append, hsnip]
      simp [Meta.get?]
  obtain ⟨r, hr⟩ := hshape
  refine ⟨?_, ?_, pyTake_length_le _ _, ⟨r, hr⟩⟩
  · intro k hk1 hk2
    rw [hr, Meta.get?_append]
    cases h : block.metadata.get? k with
    | some v => rfl
    | none => simp [Meta.get?, hk1, hk2, Ne.symm hk1, Ne.symm hk2]
  · rw [hr, Meta.get?_append, hsnip]
    simp [Meta.get?]

def blockC10 : Doc :=
  { page_content := "some text content", metadata := [("source", "a.pdf")] }

/-- Witness for C10 at a concrete block with pre-existing metadata. -/
theorem analyze_adds_exactly_role_and_snippet_witness :
    (∀ k, k ≠ "role" → k ≠ "original_content_snippet" →
      (analyzeBlock envC1 blockC10).metadata.get? k =
        blockC10.metadata.get? k) ∧
    (analyzeBlock envC1 blockC10).metadata.get? "original_content_snippet" =
      some (pyTake blockC10.page_content 200) ∧
    (pyTake blockC10.page_content 200).length ≤ 200 ∧
    ∃ r, (analyzeBlock envC1 blockC10).metadata =
      blockC10.metadata ++
        [("role", r),
         ("original_content_snippet", pyTake blockC10.page_content 200)] :=
  analyze_adds_exactly_role_and_snippet envC1 blockC10 (by rfl) (by rfl)

/-- Looking up the second of two keys written by a two-entry merge. -/
theorem Meta.merge_two_get_snd (m : Meta) (k1 v1 k2 v2 : String)
    (_h : k1 ≠ k2) :
    (m.merge [(k1, v1), (k2, v2)]).get? k2 = some v2 := by
  show ((m.set k1 v1).set k2 v2).get? k2 = some v2
  exact Meta.get?_set_self _ _ _

/-- Looking up the first of two keys written by a two-entry merge. -/
theorem Meta.merge_two_get_fst (m : Meta) (k1 v1 k2 v2 : String)
    (h : k2 ≠ k1) :
    (m.merge [(k1, v1), (k2, v2)]).get? k1 = some v1 := by
  show ((m.set k1 v1).set k2 v2).get? k1 = some v1
  rw [Meta.get?_set_ne _ _ _ _ h]
  exact Meta.get?_set_self _ _ _

/-- **C2.** `DocumentParserAgent.run` is a total function (the
embedding returns a plain list — no exception escapes) that always
returns at least one content block; when the conversion library is
unavailable, conversion (or chunking) raises, or chunking yields zero
pieces, the result is exactly one block wrapping the raw input whose
metadata carries the `chunk_error` marker. -/
theorem parse_never_fails_and_degrades (env : ParserEnv) (raw : Doc) :
    1 ≤ (DocumentParserAgent.run env raw).length ∧
    (env.doclingAvailable = false →
      ∃ m, DocumentParserAgent.run env raw =
          [{ page_content := raw.page_content, metadata := m }] ∧
        m.get? "chunk_error" = some "Docling unavailable") ∧
    (∀ e, env.doclingAvailable = true →
      env.convert raw.page_content = .error e →
      ∃ m, DocumentParserAgent.run env raw =
          [{ page_content := raw.page_content, metadata := m }] ∧
        m.get? "chunk_error" = some e) ∧
    (∀ d e, env.doclingAvailable = true →
      env.convert raw.page_content = .ok d →
      env.chunkOf d = .error e →
      ∃ m, DocumentParserAgent.run env raw =
          [{ page_content := raw.page_content, metadata := m }] ∧
        m.get? "chunk_error" = some e) ∧
    (∀ d, env.doclingAvailable = true →
      env.convert raw.page_content = .ok d →
      env.chunkOf d = .ok [] →
      ∃ m, DocumentParserAgent.run env raw =
          [{ page_content := raw.page_content, metadata := m }] ∧
        m.get? "chunk_error" = some "Chunking produced no chunks") := by
  refine ⟨?_, ?_, ?_, ?_, ?_⟩
  · unfold DocumentParserAgent.run
    cases hA : env.doclingAvailable with
    | false => simp
    | true =>
        simp only [Bool.not_true]
        cases hC : env.convert raw.page_content with
        | error e => simp
        | ok d =>
            cases hK : env.chunkOf d with
            | error e => simp [hC, hK]
            | ok chunks =>
                cases chunks with
                | nil => simp [hC, hK]
                | cons c rest => simp [hC, hK, List.length_zip]
  · intro hA
    refine ⟨raw.metadata.merge
      [("chunk_id", "0"), ("chunk_error", "Docling unavailable")], ?_,
      Meta.merge_two_get_snd _ _ _ _ _ (by decide)⟩
    unfold DocumentParserAgent.run
    rw [hA]
    simp
  · intro e hA hC
    refine ⟨raw.metadata.merge [("chunk_error", e), ("chunk_id", "0")], ?_,
      Meta.merge_two_get_fst _ _ _ _ _ (by decide)⟩
    unfold DocumentParserAgent.run
    rw [hA]
    simp [hC]
  · intro d e hA hC hK
    refine ⟨raw.metadata.merge [("chunk_error", e), ("chunk_id", "0")], ?_,
      Meta.merge_two_get_fst _ _ _ _ _ (by decide)⟩
    unfold DocumentParserAgent.run
    rw [hA]
    simp [hC, hK]
  · intro d hA hC hK
    refine ⟨raw.metadata.merge
      [("chunk_id", "0"), ("chunk_error", "Chunking produced no chunks")],
      ?_, Meta.merge_two_get_snd _ _ _ _ _ (by decide)⟩
    unfold DocumentParserAgent.run
    rw [hA]
    simp [hC, hK]

def envC2 : ParserEnv :=
  { doclingAvailable := false,
    convert := fun _ => .error "unused",
    chunkOf := fun _ => .ok [] }

def rawC2 : Doc :=
  { page_content := "raw input", metadata := [("format", "html")] }

/-- Witness for C2: the converter-unavailable fallback at a concrete
input. -/
theorem parse_never_fails_and_degrades_witness :
    1 ≤ (DocumentParserAgent.run envC2 rawC2).length ∧
    ∃ m, DocumentParserAgent.run envC2 rawC2 =
        [{ page_content := rawC2.page_content, metadata := m }] ∧
      m.get? "chunk_error" = some "Docling unavailable" :=
  ⟨(parse_never_fails_and_degrades envC2 rawC2).1,
   (parse_never_fails_and_degrades envC2 rawC2).2.1 rfl⟩

def draftHello : Doc :=
  { page_content := "hello draft", metadata := [("role", "tutorial_draft")] }

def envC3 : RefinerEnv :=
  { response := fun _ => .raised "boom", tb := "tb", useMocks := true }

/-- Counterexample to **C3** as stated: with a backend that raises, the
returned document does NOT carry the original draft content (it carries
an error-markdown block) and its status is `failed`, not
`refinement_failed`. -/
theorem refine_exception_claim_false :
    ¬ ((ReviewerRefinerAgent.run envC3 draftHello).page_content =
         draftHello.page_content ∧
       (ReviewerRefinerAgent.run envC3 draftHello).metadata.get? "status" =
         some "refinement_failed") := by
  decide

/-- **C3 (amended).** For every non-empty draft, if the refiner
encounters an exception (other than the empty-output case), it returns
— it does not raise — a document whose content is an error-markdown
block describing the exception (not the original draft content), whose
metadata keeps role `refinement_error`, status `failed`, and an
`error_message` field holding the exception text; the pipeline
continues with that document. -/
theorem refine_exception_returns_error_doc (env : RefinerEnv)
    (draft : Doc) (e : String)
    (hne : draft.page_content.isEmpty = false)
    (hresp : env.response draft.page_content = .raised e) :
    (ReviewerRefinerAgent.run env draft).page_content =
      ReviewerRefinerAgent.errorMarkdown e env.tb ∧
    (ReviewerRefinerAgent.run env draft).metadata.get? "role" =
      some "refinement_error" ∧
    (ReviewerRefinerAgent.run env draft).metadata.get? "status" =
      some "failed" ∧
    (ReviewerRefinerAgent.run env draft).metadata.get? "error_message" =
      some e := by
  have hrun : ReviewerRefinerAgent.run env draft =
      ReviewerRefinerAgent.exceptionDoc env draft e := by
    unfold ReviewerRefinerAgent.run
    rw [hne]
    simp [hresp]
  rw [hrun]
  refine ⟨rfl, ?_, ?_, ?_⟩
  · show (((draft.metadata.set "role" "refinement_error").set
      "status" "failed").set "error_message" e).get? "role" = _
    rw [Meta.get?_set_ne _ _ _ _ (by decide),
        Meta.get?_set_ne _ _ _ _ (by decide)]
    exact Meta.get?_set_self _ _ _
  · show (((draft.metadata.set "role" "refinement_error").set
      "status" "failed").set "error_message" e).get? "status" = _
    rw [Meta.get?_set_ne _ _ _ _ (by decide)]
    exact Meta.get?_set_self _ _ _
  · exact Meta.get?_set_self _ _ _

/-- Witness for the amended C3 at a concrete raising backend. -/
theorem refine_exception_returns_error_doc_witness :
    (ReviewerRefinerAgent.run envC3 draftHello).page_content =
      ReviewerRefinerAgent.errorMarkdown "boom" envC3.tb ∧
    (ReviewerRefinerAgent.run envC3 draftHello).metadata.get? "role" =
      some "refinement_error" ∧
    (ReviewerRefinerAgent.run envC3 draftHello).metadata.get? "status" =
      some "failed" ∧
    (ReviewerRefinerAgent.run envC3 draftHello).metadata.get?
      "error_message" = some "boom" :=
  refine_exception_returns_error_doc envC3 draftHello "boom"
    (by decide) rfl

def envC5 : RefinerEnv :=
  { response := fun _ => .text "   ", tb := "tb", useMocks := true }

/-- Counterexample to **C5** as stated: when the backend returns
whitespace only, the content does equal the pre-refinement draft, but
the `status` metadata is `refinement_empty_output` (the role is
`tutorial_unrefined`), not `unrefined`. -/
theorem refine_empty_claim_false :
    (ReviewerRefinerAgent.run envC5 draftHello).page_content =
      draftHello.page_content ∧
    (ReviewerRefinerAgent.run envC5 draftHello).metadata.get? "status" ≠
      some "unrefined" ∧
    (ReviewerRefinerAgent.run envC5 draftHello).metadata.get? "status" =
      some "refinement_empty_output" := by
  refine ⟨?_, ?_, ?_⟩ <;> decide

/-- **C5 (amended).** For every non-empty draft, if the refined text
returned by the backend is empty after trimming, the refiner returns a
document whose content equals the pre-refinement draft content, whose
`status` metadata is `refinement_empty_output` and whose `role`
metadata is `tutorial_unrefined` (rather than presenting an empty
tutorial). -/
theorem refine_empty_output_keeps_draft (env : RefinerEnv)
    (draft : Doc) (s : String)
    (hne : draft.page_content.isEmpty = false)
    (hresp : env.response draft.page_content = .text s)
    (hempty : (pyStrip s).isEmpty = true) :
    (ReviewerRefinerAgent.run env draft).page_content =
      draft.page_content ∧
    (ReviewerRefinerAgent.run env draft).metadata.get? "status" =
      some "refinement_empty_output" ∧
    (ReviewerRefinerAgent.run env draft).metadata.get? "role" =
      some "tutorial_unrefined" := by
  have hrun : ReviewerRefinerAgent.run env draft =
      { page_content := draft.page_content,
        metadata := (draft.metadata.set "status"
          "refinement_empty_output").set "role" "tutorial_unrefined" } := by
    unfold ReviewerRefinerAgent.run
    rw [hne]
    simp [hresp, hempty]
  rw [hrun]
  refine ⟨rfl, ?_, Meta.get?_set_self _ _ _⟩
  rw [Meta.get?_set_ne _ _ _ _ (by decide)]
  exact Meta.get?_set_self _ _ _

/-- Witness for the amended C5 at a concrete whitespace-only backend. -/
theorem refine_empty_output_keeps_draft_witness :
    (ReviewerRefinerAgent.run envC5 draftHello).page_content =
      draftHello.page_content ∧
    (ReviewerRefinerAgent.run envC5 draftHello).metadata.get? "status" =
      some "refinement_empty_output" ∧
    (ReviewerRefinerAgent.run envC5 draftHello).metadata.get? "role" =
      some "tutorial_unrefined" :=
  refine_empty_output_keeps_draft envC5 draftHello "   "
    (by decide) rfl (by decide)

def envC6ok : StructEnv :=
  { create := fun _ => .ok "[]", parseOutlineList := fun _ => some [] }

def envC6raise : StructEnv :=
  { create := fun _ => .error "backend down",
    parseOutlineList := fun _ => none }

def insightStep : Doc :=
  { page_content := "a step summary", metadata := [("role", "step")] }

/-- Counterexample to **C6** as stated: on an empty insight list the
structurer returns an empty outline instead of failing with
`StructuringError`, and on a non-empty insight list a raising backend
makes it fail instead of returning an outline. -/
theorem structure_claim_false :
    TutorialStructureAgent.run envC6ok [] = .ok [] ∧
    TutorialStructureAgent.run envC6raise [insightStep] =
      .error "backend down" := by
  exact ⟨rfl, rfl⟩

/-- **C6 (amended).** `TutorialStructureAgent.run` never raises a
`StructuringError` on an empty insight list: it short-circuits to an
empty outline.  For a non-empty insight list it returns the parsed
outline (empty when the response does not parse as a JSON list) when
the backend call succeeds, and propagates the backend exception when
the backend raises. -/
theorem structure_empty_ok_nonempty_backend (env : StructEnv) :
    TutorialStructureAgent.run env [] = .ok [] ∧
    (∀ insights resp, insights ≠ [] →
      env.create (TutorialStructureAgent.buildPrompt insights) = .ok resp →
      TutorialStructureAgent.run env insights =
        .ok ((env.parseOutlineList resp).getD [])) ∧
    (∀ insights e, insights ≠ [] →
      env.create (TutorialStructureAgent.buildPrompt insights) =
        .error e →
      TutorialStructureAgent.run env insights = .error e) := by
  refine ⟨rfl, ?_, ?_⟩
  · intro insights resp hne hcreate
    unfold TutorialStructureAgent.run
    rw [List.isEmpty_eq_false_iff_exists_mem.mpr
      (by cases insights with
          | nil => exact absurd rfl hne
          | cons a l => exact ⟨a, List.mem_cons_self a l⟩)]
    simp [hcreate]
  · intro insights e hne hcreate
    unfold TutorialStructureAgent.run
    rw [List.isEmpty_eq_false_iff_exists_mem.mpr
      (by cases insights with
          | nil => exact absurd rfl hne
          | cons a l => exact ⟨a, List.mem_cons_self a l⟩)]
    simp [hcreate]

/-- Witness for the amended C6 at concrete environments and inputs. -/
theorem structure_empty_ok_nonempty_backend_witness :
    TutorialStructureAgent.run envC6raise [] = .ok [] ∧
    TutorialStructureAgent.run envC6raise [insightStep] =
      .error "backend down" :=
  ⟨(structure_empty_ok_nonempty_backend envC6raise).1,
   (structure_empty_ok_nonempty_backend envC6raise).2.2 [insightStep]
     "backend down" (by simp) rfl⟩

def stagesC4 : WorkflowStages :=
  { fileExists := fun _ => true,
    parse := fun _ => [{ page_content := "raw", metadata := [] }],
    analyze := fun _ =>
      [{ page_content := "a step summary", metadata := [("role", "step")] }],
    buildOutline := fun _ => [],
    draft := fun _ => "DRAFT MD",
    refine := fun s => s ++ " REFINED" }

/-- Counterexample to **C4** as stated: with non-empty insights and an
empty outline, `run_workflow` does not abort — drafting and refinement
both run on the empty outline and the terminal result is the refined
draft, not an error-tagged document. -/
theorem orchestrator_empty_outline_claim_false :
    stagesC4.analyze (stagesC4.parse "doc.pdf") ≠ [] ∧
    stagesC4.buildOutline
      (stagesC4.analyze (stagesC4.parse "doc.pdf")) = [] ∧
    run_workflow stagesC4 "doc.pdf" =
      .ok { markdown := "DRAFT MD REFINED", outline := [],
            insights := [{ page_content := "a step summary",
                           metadata := [("role", "step")] }],
            blocks := [{ page_content := "raw", metadata := [] }],
            src := "doc.pdf" } := by
  refine ⟨by simp [stagesC4], rfl, rfl⟩

/-- **C4 (amended).** `run_workflow` performs no empty-outline check:
whenever the input file exists, the stages are sequenced
unconditionally, so the terminal markdown is always the refiner applied
to the drafter applied to whatever outline structuring returned — even
an empty outline produced from non-empty insights — and the
orchestrator itself never substitutes an error-tagged result. -/
theorem orchestrator_sequences_unconditionally (st : WorkflowStages)
    (input : String) (hex : st.fileExists input = true) :
    run_workflow st input =
      .ok { markdown := st.refine (st.draft
              (st.buildOutline (st.analyze (st.parse input)))),
            outline := st.buildOutline (st.analyze (st.parse input)),
            insights := st.analyze (st.parse input),
            blocks := st.parse input,
            src := input } := by
  unfold run_workflow
  rw [hex]
  simp

/-- Witness for the amended C4 at the concrete stage behaviors. -/
theorem orchestrator_sequences_unconditionally_witness :
    run_workflow stagesC4 "doc.pdf" =
      .ok { markdown := stagesC4.refine (stagesC4.draft
              (stagesC4.buildOutline
                (stagesC4.analyze (stagesC4.parse "doc.pdf")))),
            outline := stagesC4.buildOutline
              (stagesC4.analyze (stagesC4.parse "doc.pdf")),
            insights := stagesC4.analyze (stagesC4.parse "doc.pdf"),
            blocks := stagesC4.parse "doc.pdf",
            src := "doc.pdf" } :=
  orchestrator_sequences_unconditionally stagesC4 "doc.pdf" rfl

/-- **C7.** `SourceRetrieverAgent.run` fails (raises the exception the
specification calls `RetrievalError` — a `ValueError` in the source)
instead of returning a result whenever the source string is neither an
`http://`/`https://` URL on a reachable server nor a path to an
existing local file, or when no content could be read from a local
file. -/
theorem retrieve_fails_on_bad_source (env : RetrieverEnv)
    (reg : List String) (source : String) :
    (SourceRetrieverAgent.isUrlSource source = false →
      env.isFile source = false →
      SourceRetrieverAgent.run env reg source =
        .error ("Input source " ++ source ++
                " is not a valid URL or existing local file.")) ∧
    (∀ e, SourceRetrieverAgent.isUrlSource source = true →
      env.fetch source = .requestError e →
      SourceRetrieverAgent.run env reg source =
        .error ("Failed to retrieve source URL: " ++ source)) ∧
    (∀ e, SourceRetrieverAgent.isUrlSource source = false →
      env.isFile source = true →
      pyEndsWith (pyLower source) ".pdf" = false →
      env.readTextUtf8 source = .otherError e →
      SourceRetrieverAgent.run env reg source =
        .error ("Failed to read local file: " ++ source)) ∧
    (∀ e, SourceRetrieverAgent.isUrlSource source = false →
      env.isFile source = true →
      pyEndsWith (pyLower source) ".pdf" = false →
      env.readTextUtf8 source = .unicodeError →
      env.readBytes source = .error e →
      SourceRetrieverAgent.run env reg source =
        .error ("Failed to read local file: " ++ source)) := by
  refine ⟨?_, ?_, ?_, ?_⟩
  · intro hu hf
    unfold SourceRetrieverAgent.run
    rw [hu, hf]
    simp
  · intro e hu hrq
    unfold SourceRetrieverAgent.run
    rw [hu]
    simp [hrq]
  · intro e hu hf hext hrd
    unfold SourceRetrieverAgent.run
    rw [hu, hf, hext]
    simp [hrd]
  · intro e hu hf hext hrd hrb
    unfold SourceRetrieverAgent.run
    rw [hu, hf, hext]
    simp [hrd, hrb]

def envC7 : RetrieverEnv :=
  { fetch := fun _ => .requestError "unreachable",
    isFile := fun _ => false,
    readTextUtf8 := fun _ => .unicodeError,
    readBytes := fun _ => .error "io",
    decodeIgnore := fun _ _ => "",
    mkTempPdf := fun _ => "/tmp/t.pdf" }

/-- Witness for C7: Scenario D of the specification —
`"not-a-url-or-file"` raises. -/
theorem retrieve_fails_on_bad_source_witness :
    SourceRetrieverAgent.run envC7 [] "not-a-url-or-file" =
      .error ("Input source " ++ "not-a-url-or-file" ++
              " is not a valid URL or existing local file.") :=
  (retrieve_fails_on_bad_source envC7 [] "not-a-url-or-file").1
    (by decide) rfl

/-- Helper: the URL branch under a successful fetch classifies as PDF
(via the Content-Type header or the magic bytes) and returns the temp
path, registering it. -/
theorem run_url_pdf_eq (env : RetrieverEnv) (reg : List String)
    (source : String) (resp : HttpResponse)
    (hu : SourceRetrieverAgent.isUrlSource source = true)
    (hf : env.fetch source = .ok resp)
    (hpdf : strContainsSub "application/pdf"
        (pyLower resp.contentType).toList = true ∨
      resp.body.take 5 = pdfMagic) :
    SourceRetrieverAgent.run env reg source =
      .ok ({ page_content := env.mkTempPdf resp.body,
             metadata := [("format", "pdf"), ("source", source)] },
           addToSet reg (env.mkTempPdf resp.body)) := by
  by_cases hc : strContainsSub "application/pdf"
      (pyLower resp.contentType).toList = true
  · have hc2 : strContainsSub "application/pdf"
        (pyLower resp.contentType).data = true := hc
    unfold SourceRetrieverAgent.run
    rw [hu]
    simp [hf, hc, hc2]
  · have hm : resp.body.take 5 = pdfMagic := by
      rcases hpdf with h | h
      · exact absurd h hc
      · exact h
    have hc2 : strContainsSub "application/pdf"
        (pyLower resp.contentType).data = false :=
      eq_false_of_ne_true hc
    unfold SourceRetrieverAgent.run
    rw [hu]
    simp [hf, hc2, hm]

/-- **C8.** For every successfully fetched URL response, the retriever
classifies the content as PDF exactly when the Content-Type header
mentions `application/pdf` or the first body bytes are the `%PDF-`
magic signature (persisting the bytes to a registered temp file);
every other response is classified as HTML/text and decoded with the
response's declared encoding, falling back to permissive UTF-8
decoding. -/
theorem retrieve_url_classification (env : RetrieverEnv)
    (reg : List String) (source : String) (resp : HttpResponse)
    (hu : SourceRetrieverAgent.isUrlSource source = true)
    (hf : env.fetch source = .ok resp) :
    ((strContainsSub "application/pdf"
        (pyLower resp.contentType).toList = true ∨
      resp.body.take 5 = pdfMagic) →
      SourceRetrieverAgent.run env reg source =
        .ok ({ page_content := env.mkTempPdf resp.body,
               metadata := [("format", "pdf"), ("source", source)] },
             addToSet reg (env.mkTempPdf resp.body))) ∧
    (strContainsSub "application/pdf"
        (pyLower resp.contentType).toList = false →
      resp.body.take 5 ≠ pdfMagic →
      SourceRetrieverAgent.run env reg source =
        .ok ({ page_content :=
                 env.decodeIgnore (pyOrStr resp.encoding "utf-8") resp.body,
               metadata := [("format", "html"), ("source", source)] },
             reg)) := by
  refine ⟨run_url_pdf_eq env reg source resp hu hf, ?_⟩
  intro hc hm
  have hc2 : strContainsSub "application/pdf"
      (pyLower resp.contentType).data = false := hc
  unfold SourceRetrieverAgent.run
  rw [hu]
  simp [hf, hc2, hm]

def envC8 : RetrieverEnv :=
  { fetch := fun _ => .ok { contentType := "application/pdf",
                            body := [37, 80, 68, 70, 45, 49],
                            encoding := none },
    isFile := fun _ => false,
    readTextUtf8 := fun _ => .unicodeError,
    readBytes := fun _ => .error "io",
    decodeIgnore := fun _ _ => "decoded",
    mkTempPdf := fun _ => "/tmp/dl.pdf" }

/-- Witness for C8: a PDF response from a URL at a concrete
environment. -/
theorem retrieve_url_classification_witness :
    SourceRetrieverAgent.run envC8 [] "http://x/doc" =
      .ok ({ page_content := envC8.mkTempPdf [37, 80, 68, 70, 45, 49],
             metadata := [("format", "pdf"),
                          ("source", "http://x/doc")] },
           addToSet [] (envC8.mkTempPdf [37, 80, 68, 70, 45, 49])) :=
  (retrieve_url_classification envC8 [] "http://x/doc"
      { contentType := "application/pdf", body := [37, 80, 68, 70, 45, 49],
        encoding := none }
      (by decide) rfl).1 (Or.inl (by decide))

/-- Everything the cleanup run keeps registered was already absent from
the filesystem at its turn; the final filesystem is a subset of the
initial one. -/
theorem cleanup_fst_subset (reg fs : List String) :
    (cleanup_temp_files fs reg).1 ⊆ fs := by
  induction reg generalizing fs with
  | nil => simp [cleanup_temp_files]
  | cons g rest ih =>
      by_cases hg : g ∈ fs
      · simp only [cleanup_temp_files, hg, if_true]
        exact (ih (fs.erase g)).trans (List.erase_subset _ _)
      · simp only [cleanup_temp_files, hg, if_false]
        exact ih fs

/-- Every path still registered after a cleanup run no longer exists in
the resulting filesystem. -/
theorem cleanup_kept_not_present (reg fs : List String) (f : String)
    (hf : f ∈ (cleanup_temp_files fs reg).2) :
    f ∉ (cleanup_temp_files fs reg).1 := by
  induction reg generalizing fs with
  | nil => simp [cleanup_temp_files] at hf
  | cons g rest ih =>
      by_cases hg : g ∈ fs
      · simp only [cleanup_temp_files, hg, if_true] at hf ⊢
        exact ih (fs.erase g) hf
      · simp only [cleanup_temp_files, hg, if_false] at hf ⊢
        rcases List.mem_cons.mp hf with rfl | hf2
        · intro hmem
          exact hg (cleanup_fst_subset rest fs hmem)
        · exact ih fs hf2

/-- A cleanup run over a registry of already-removed files is a no-op:
no error escapes and nothing changes. -/
theorem cleanup_of_absent (reg fs : List String)
    (h : ∀ f ∈ reg, f ∉ fs) :
    cleanup_temp_files fs reg = (fs, reg) := by
  induction reg with
  | nil => rfl
  | cons g rest ih =>
      have hg : g ∉ fs := h g (List.mem_cons_self g rest)
      simp only [cleanup_temp_files, hg, if_false]
      rw [ih (fun f hf => h f (List.mem_cons_of_mem g hf))]

/-- **C9.** The retriever's temp-file handling: every PDF temp file
created from a URL is registered in the process-wide registry
(membership in the returned registry), running the cleanup a second
time is a no-op (idempotence), and deleting a file that has already
been removed does not raise out of the cleanup routine — the entry is
skipped, kept registered, and processing continues (the routine is a
total function). -/
theorem temp_file_cleanup_idempotent_total (env : RetrieverEnv)
    (reg : List String) (source : String) (resp : HttpResponse)
    (fs reg2 : List String) (f : String) (rest : List String)
    (hu : SourceRetrieverAgent.isUrlSource source = true)
    (hf : env.fetch source = .ok resp)
    (hpdf : strContainsSub "application/pdf"
        (pyLower resp.contentType).toList = true ∨
      resp.body.take 5 = pdfMagic)
    (hmiss : f ∉ fs) :
    (∃ d, SourceRetrieverAgent.run env reg source = .ok (d, addToSet reg
        (env.mkTempPdf resp.body)) ∧
      env.mkTempPdf resp.body ∈ addToSet reg (env.mkTempPdf resp.body)) ∧
    cleanup_temp_files (cleanup_temp_files fs reg2).1
        (cleanup_temp_files fs reg2).2 = cleanup_temp_files fs reg2 ∧
    cleanup_temp_files fs (f :: rest) =
      ((cleanup_temp_files fs rest).1,
       f :: (cleanup_temp_files fs rest).2) := by
  refine ⟨?_, ?_, ?_⟩
  · refine ⟨_, run_url_pdf_eq env reg source resp hu hf hpdf, ?_⟩
    unfold addToSet
    by_cases hmem : env.mkTempPdf resp.body ∈ reg
    · simp [hmem]
    · simp [hmem]
  · rw [cleanup_of_absent _ _
      (fun g hg => cleanup_kept_not_present reg2 fs g hg)]
  · simp only [cleanup_temp_files, hmiss, if_false]

/-- Witness for C9 at concrete environments, registry and filesystem. -/
theorem temp_file_cleanup_idempotent_total_witness :
    (∃ d, SourceRetrieverAgent.run envC8 [] "http://x/doc" = .ok (d,
        addToSet [] (envC8.mkTempPdf [37, 80, 68, 70, 45, 49])) ∧
      envC8.mkTempPdf [37, 80, 68, 70, 45, 49] ∈
        addToSet [] (envC8.mkTempPdf [37, 80, 68, 70, 45, 49])) ∧
    cleanup_temp_files
        (cleanup_temp_files ["/tmp/a"] ["/tmp/dl.pdf"]).1
        (cleanup_temp_files ["/tmp/a"] ["/tmp/dl.pdf"]).2 =
      cleanup_temp_files ["/tmp/a"] ["/tmp/dl.pdf"] ∧
    cleanup_temp_files ["/tmp/a"] ("/tmp/dl.pdf" :: []) =
      ((cleanup_temp_files ["/tmp/a"] []).1,
       "/tmp/dl.pdf" :: (cleanup_temp_files ["/tmp/a"] []).2) :=
  temp_file_cleanup_idempotent_total envC8 [] "http://x/doc"
    { contentType := "application/pdf", body := [37, 80, 68, 70, 45, 49],
      encoding := none }
    ["/tmp/a"] ["/tmp/dl.pdf"] "/tmp/dl.pdf" [] (by decide) rfl
    (Or.inl (by decide)) (by decide)
